import Mathlib

/-!
Shallow embedding of the Forlenza Industrial Control System core
(src/src/main.rs): the SensorData record, the background sensor
simulation tick, and the three operator commands (run diagnostic,
emergency shutdown, reset) as they are dispatched by the eframe
update handler.

Modelling conventions:
* f32 sensor values are modelled as rationals; u16 motor speeds as
  naturals reduced mod 2 ^ 16 where the source casts.
* std::time::Instant is modelled as a natural-number timestamp
  supplied with each tick.
* Each call to the in-crate rand::random is modelled as reading an
  oracle stream supplied to the tick (one stream per loop, indexed by
  loop position), since the claims quantify over all random draws.
* Mutex::lock in a sequential-interleaving model always succeeds
  (no panic ever poisons the lock), so the `if let Ok` branches are
  always taken.
* The settle-delay thread spawned by run_diagnostic sleeps and exits
  without touching any state (the source writes no channel back), so
  it contributes nothing to the model.
-/

/-- Rust f32::clamp on rationals: below the range gives the lower
bound, above gives the upper bound, otherwise the value itself. -/
def clampQ (x lo hi : ℚ) : ℚ :=
  if x < lo then lo else if x > hi then hi else x

/-- The SensorData struct of src/src/main.rs. -/
structure SensorData where
  temperatures : List ℚ
  pressures : List ℚ
  motor_speeds : List ℕ
  motor_states : List Bool
  safety_interlocks : Bool
  last_update : ℕ
deriving Repr, DecidableEq

/-- SensorData::default. -/
def SensorData.default : SensorData :=
  { temperatures := [23.5, 24.1, 22.8, 25.0]
    pressures := [101.3, 98.7, 102.1]
    motor_speeds := [1750, 1800, 0, 2200]
    motor_states := [true, true, false, true]
    safety_interlocks := true
    last_update := 0 }

/-- The ForlenzaControlApp struct. The boolean field
`emergency_shutdown` is the operational mode: true means
EmergencyShutdown, false means Normal. -/
structure ForlenzaControlApp where
  system_compatible : Bool
  error_message : String
  sensor_data : SensorData
  diagnostic_running : Bool
  diagnostic_log : List String
  emergency_shutdown : Bool
  connection_status : String
deriving Repr, DecidableEq

/-- ForlenzaControlApp::default given the verdict of
check_windows_7_compatibility (the environment capability gate; its
OS probing is outside the core, so its result is a parameter). -/
def mkApp (compatible : Bool) (error : String) : ForlenzaControlApp :=
  { system_compatible := compatible
    error_message := error
    sensor_data := SensorData.default
    diagnostic_running := false
    diagnostic_log := []
    emergency_shutdown := false
    connection_status :=
      if compatible then "Connected to Legacy PLCs" else "System Incompatible" }

/-- The random draws and timestamp consumed by one simulation tick:
`tr i` is the rand::random f32 drawn for the i-th temperature, `pr i`
for the i-th pressure, `mr i` the rand::random u16 drawn for the i-th
motor, and `now` the Instant::now of the tick. -/
structure TickInput where
  tr : ℕ → ℚ
  pr : ℕ → ℚ
  mr : ℕ → ℕ
  now : ℕ

/-- Temperature loop of the tick:
temp += (random - 0.5) * 0.2; clamp(20.0, 30.0). -/
def tickTemps (tr : ℕ → ℚ) : ℕ → List ℚ → List ℚ
  | _, [] => []
  | i, t :: rest =>
      clampQ (t + (tr i - 0.5) * 0.2) 20 30 :: tickTemps tr (i + 1) rest

/-- Pressure loop of the tick:
pressure += (random - 0.5) * 0.5; clamp(95.0, 105.0). -/
def tickPressures (pr : ℕ → ℚ) : ℕ → List ℚ → List ℚ
  | _, [] => []
  | i, p :: rest =>
      clampQ (p + (pr i - 0.5) * 0.5) 95 105 :: tickPressures pr (i + 1) rest

/-- Motor-speed loop of the tick: iterates motor_speeds zipped with
motor_states; a running motor gets (1750 + i * 50 + random % 100) as
u16, a stopped motor is not written. The zip with `&data.motor_states`
stops at the shorter list, which `List.getD i false` reproduces. -/
def tickSpeeds (states : List Bool) (mr : ℕ → ℕ) : ℕ → List ℕ → List ℕ
  | _, [] => []
  | i, s :: rest =>
      (if states.getD i false
       then (1750 + i * 50 + mr i % 100) % 65536
       else s) :: tickSpeeds states mr (i + 1) rest

/-- One iteration of the loop body in start_sensor_simulation, acting
on the locked SensorData. -/
def tickSensors (inp : TickInput) (d : SensorData) : SensorData :=
  { d with
    temperatures := tickTemps inp.tr 0 d.temperatures
    pressures := tickPressures inp.pr 0 d.pressures
    motor_speeds := tickSpeeds d.motor_states inp.mr 0 d.motor_speeds
    last_update := inp.now }

/-- The fixed lines pushed by run_diagnostic after clearing the log. -/
def diagnosticLines : List String :=
  [ "=== FORLENZA INDUSTRIAL DIAGNOSTIC ==="
  , "System ID: FIS-CTRL-7001"
  , "Initializing legacy hardware interfaces..."
  , "Checking Windows 7 compatibility... ✓"
  , "Loading legacy PLC drivers... ✓"
  , "Connecting to industrial network... ✓"
  , "Verifying safety interlocks... ✓"
  , "Diagnostic Complete - All Systems Operational" ]

/-- ForlenzaControlApp::run_diagnostic. Returns early when the system
is incompatible or a diagnostic is already running; otherwise sets the
flag, clears the log and pushes the fixed lines. The spawned settle
thread only sleeps and exits, so it has no further effect. -/
def runDiagnostic (a : ForlenzaControlApp) : ForlenzaControlApp :=
  if !a.system_compatible || a.diagnostic_running then a
  else
    { a with
      diagnostic_running := true
      diagnostic_log := diagnosticLines }

/-- The mutable zip in emergency_shutdown: pairs of
(motor_speeds, motor_states) entries are set to (0, false) up to the
length of the shorter list; any tail of the longer list is untouched. -/
def shutdownZip : List ℕ → List Bool → List ℕ × List Bool
  | _ :: ss, _ :: bs =>
      let r := shutdownZip ss bs
      (0 :: r.1, false :: r.2)
  | ss, bs => (ss, bs)

/-- Effect of ForlenzaControlApp::emergency_shutdown on the locked
SensorData: zero every paired motor speed, stop every paired motor,
force the interlocks on. -/
def shutdownSensors (d : SensorData) : SensorData :=
  { d with
    motor_speeds := (shutdownZip d.motor_speeds d.motor_states).1
    motor_states := (shutdownZip d.motor_speeds d.motor_states).2
    safety_interlocks := true }

/-- ForlenzaControlApp::emergency_shutdown. -/
def emergencyShutdown (a : ForlenzaControlApp) : ForlenzaControlApp :=
  { a with
    sensor_data := shutdownSensors a.sensor_data
    emergency_shutdown := true
    connection_status := "EMERGENCY SHUTDOWN ACTIVE" }

/-- The run configuration written by the Reset System handler. -/
def defaultRunConfig : List Bool := [true, true, false, true]

/-- Speed loop of the Reset System handler: motor_speeds zipped with
the just-written motor_states; a running motor gets
1750 + (i * 50) as u16, a stopped one is not written. -/
def resetSpeeds (states : List Bool) : ℕ → List ℕ → List ℕ
  | _, [] => []
  | i, s :: rest =>
      (if states.getD i false
       then (1750 + i * 50 % 65536) % 65536
       else s) :: resetSpeeds states (i + 1) rest

/-- Effect of the Reset System handler on the locked SensorData:
motor_states is set to the default run configuration, then speeds of
running motors are recomputed from the base formula. -/
def resetSensors (d : SensorData) : SensorData :=
  { d with
    motor_states := defaultRunConfig
    motor_speeds := resetSpeeds defaultRunConfig 0 d.motor_speeds }

/-- The Reset System button handler in eframe::App::update: guarded by
`self.emergency_shutdown`; otherwise nothing happens. -/
def resetSystem (a : ForlenzaControlApp) : ForlenzaControlApp :=
  if a.emergency_shutdown then
    { a with
      sensor_data := resetSensors a.sensor_data
      emergency_shutdown := false
      connection_status := "Connected to Legacy PLCs" }
  else a

/-- The three operator commands of the control panel. -/
inductive Command where
  | runDiag
  | emergencyStop
  | reset
deriving Repr, DecidableEq

/-- Command dispatch as performed by eframe::App::update: when the
system is incompatible the update function returns after rendering the
error panel, before any button exists, so no command has any effect. -/
def processCommand (c : Command) (a : ForlenzaControlApp) : ForlenzaControlApp :=
  if !a.system_compatible then a
  else
    match c with
    | Command.runDiag => runDiagnostic a
    | Command.emergencyStop => emergencyShutdown a
    | Command.reset => resetSystem a

/-- One event of the interleaving model: either a simulator tick (the
simulation thread exists only when the app was constructed compatible,
and system_compatible never changes, so ticks fire exactly in
compatible apps) or one command dispatched by the update handler. -/
inductive Step where
  | tick (inp : TickInput)
  | cmd (c : Command)

/-- Apply one step to the app state. -/
def applyStep (st : Step) (a : ForlenzaControlApp) : ForlenzaControlApp :=
  match st with
  | Step.tick inp =>
      if a.system_compatible then
        { a with sensor_data := tickSensors inp a.sensor_data }
      else a
  | Step.cmd c => processCommand c a

/-- Run a sequence of steps from a state. -/
def runSteps (a : ForlenzaControlApp) (steps : List Step) : ForlenzaControlApp :=
  steps.foldl (fun s st => applyStep st s) a

/-- A state is reachable when some construction verdict and some step
sequence produce it. -/
def Reachable (a : ForlenzaControlApp) : Prop :=
  ∃ (compatible : Bool) (error : String) (steps : List Step),
    a = runSteps (mkApp compatible error) steps

/-- Run a sequence of simulator ticks on the sensor record alone. -/
def runTicks (d : SensorData) (l : List TickInput) : SensorData :=
  l.foldl (fun s inp => tickSensors inp s) d

lemma clampQ_le (x lo hi : ℚ) (h : lo ≤ hi) :
    lo ≤ clampQ x lo hi ∧ clampQ x lo hi ≤ hi := by
  unfold clampQ
  split
  · exact ⟨le_refl lo, h⟩
  · split
    · exact ⟨h, le_refl hi⟩
    · constructor <;> linarith [lt_or_ge x lo, lt_or_ge hi x]

lemma mem_tickTemps (tr : ℕ → ℚ) :
    ∀ (i : ℕ) (ts : List ℚ) (x : ℚ), x ∈ tickTemps tr i ts →
      20 ≤ x ∧ x ≤ 30 := by
  intro i ts
  induction ts generalizing i with
  | nil => intro x hx; simp [tickTemps] at hx
  | cons t rest ih =>
      intro x hx
      rcases (by simpa [tickTemps] using hx) with h | h
      · exact h ▸ clampQ_le _ 20 30 (by norm_num)
      · exact ih (i + 1) x h

lemma mem_tickPressures (pr : ℕ → ℚ) :
    ∀ (i : ℕ) (ps : List ℚ) (x : ℚ), x ∈ tickPressures pr i ps →
      95 ≤ x ∧ x ≤ 105 := by
  intro i ps
  induction ps generalizing i with
  | nil => intro x hx; simp [tickPressures] at hx
  | cons p rest ih =>
      intro x hx
      rcases (by simpa [tickPressures] using hx) with h | h
      · exact h ▸ clampQ_le _ 95 105 (by norm_num)
      · exact ih (i + 1) x h

lemma tickSpeeds_length (states : List Bool) (mr : ℕ → ℕ) :
    ∀ (i : ℕ) (l : List ℕ), (tickSpeeds states mr i l).length = l.length := by
  intro i l
  induction l generalizing i with
  | nil => rfl
  | cons s rest ih => simp [tickSpeeds, ih]

lemma resetSpeeds_length (states : List Bool) :
    ∀ (i : ℕ) (l : List ℕ), (resetSpeeds states i l).length = l.length := by
  intro i l
  induction l generalizing i with
  | nil => rfl
  | cons s rest ih => simp [resetSpeeds, ih]

lemma shutdownZip_fst_length :
    ∀ (ss : List ℕ) (bs : List Bool),
      (shutdownZip ss bs).1.length = ss.length := by
  intro ss
  induction ss with
  | nil => intro bs; cases bs <;> rfl
  | cons s rest ih =>
      intro bs
      cases bs with
      | nil => rfl
      | cons b bs => simp [shutdownZip, ih]

lemma shutdownZip_snd_length :
    ∀ (ss : List ℕ) (bs : List Bool),
      (shutdownZip ss bs).2.length = bs.length := by
  intro ss
  induction ss with
  | nil => intro bs; cases bs <;> rfl
  | cons s rest ih =>
      intro bs
      cases bs with
      | nil => rfl
      | cons b bs => simp [shutdownZip, ih]

lemma shutdownZip_all :
    ∀ (ss : List ℕ) (bs : List Bool), ss.length = bs.length →
      (∀ x ∈ (shutdownZip ss bs).1, x = 0) ∧
      (∀ y ∈ (shutdownZip ss bs).2, y = false) := by
  intro ss
  induction ss with
  | nil =>
      intro bs h
      cases bs with
      | nil => simp [shutdownZip]
      | cons b bs => simp at h
  | cons s rest ih =>
      intro bs h
      cases bs with
      | nil => simp at h
      | cons b bs =>
          have := ih bs (by simpa using h)
          constructor
          · intro x hx
            rcases (by simpa [shutdownZip] using hx) with h0 | h0
            · exact h0
            · exact this.1 x h0
          · intro y hy
            rcases (by simpa [shutdownZip] using hy) with h0 | h0
            · exact h0
            · exact this.2 y h0

lemma shutdownZip_idem :
    ∀ (ss : List ℕ) (bs : List Bool),
      shutdownZip (shutdownZip ss bs).1 (shutdownZip ss bs).2 =
        shutdownZip ss bs := by
  intro ss
  induction ss with
  | nil => intro bs; cases bs <;> rfl
  | cons s rest ih =>
      intro bs
      cases bs with
      | nil => rfl
      | cons b bs => simp [shutdownZip, ih]

lemma getD_false_of_all_false (l : List Bool) (h : ∀ b ∈ l, b = false) :
    ∀ i : ℕ, l.getD i false = false := by
  induction l with
  | nil => intro i; simp
  | cons x xs ih =>
      intro i
      cases i with
      | zero => simpa using h x (by simp)
      | succ n =>
          simpa using ih (fun b hb => h b (by simp [hb])) n

lemma tickSpeeds_all_false (states : List Bool) (mr : ℕ → ℕ)
    (h : ∀ b ∈ states, b = false) :
    ∀ (i : ℕ) (l : List ℕ), tickSpeeds states mr i l = l := by
  intro i l
  induction l generalizing i with
  | nil => rfl
  | cons s rest ih =>
      simp only [tickSpeeds]
      rw [getD_false_of_all_false states h i]
      simp [ih]

/-- Inductive invariant of the app: the motor lists keep the reference
length 4, and in EmergencyShutdown mode every motor speed is 0, every
motor is stopped and the interlocks are on. -/
def AppInv (a : ForlenzaControlApp) : Prop :=
  a.sensor_data.motor_speeds.length = 4 ∧
  a.sensor_data.motor_states.length = 4 ∧
  (a.emergency_shutdown = true →
    (∀ x ∈ a.sensor_data.motor_speeds, x = 0) ∧
    (∀ b ∈ a.sensor_data.motor_states, b = false) ∧
    a.sensor_data.safety_interlocks = true)

lemma appInv_mkApp (c : Bool) (e : String) : AppInv (mkApp c e) := by
  refine ⟨rfl, rfl, ?_⟩
  intro h
  simp [mkApp] at h

lemma appInv_runDiagnostic (a : ForlenzaControlApp) (h : AppInv a) :
    AppInv (runDiagnostic a) := by
  obtain ⟨h1, h2, h3⟩ := h
  unfold runDiagnostic
  split
  · exact ⟨h1, h2, h3⟩
  · exact ⟨h1, h2, h3⟩

lemma appInv_emergencyShutdown (a : ForlenzaControlApp) (h : AppInv a) :
    AppInv (emergencyShutdown a) := by
  obtain ⟨h1, h2, h3⟩ := h
  have hall := shutdownZip_all a.sensor_data.motor_speeds
    a.sensor_data.motor_states (by rw [h1, h2])
  refine ⟨?_, ?_, ?_⟩
  · show (shutdownZip _ _).1.length = 4
    rw [shutdownZip_fst_length]
    exact h1
  · show (shutdownZip _ _).2.length = 4
    rw [shutdownZip_snd_length]
    exact h2
  · intro _
    exact ⟨hall.1, hall.2, rfl⟩

lemma appInv_resetSystem (a : ForlenzaControlApp) (h : AppInv a) :
    AppInv (resetSystem a) := by
  obtain ⟨h1, h2, h3⟩ := h
  unfold resetSystem
  split
  · refine ⟨?_, rfl, ?_⟩
    · show (resetSpeeds _ _ _).length = 4
      rw [resetSpeeds_length]
      exact h1
    · intro hm
      exact Bool.noConfusion hm
  · exact ⟨h1, h2, h3⟩

lemma appInv_tickSensors (inp : TickInput) (a : ForlenzaControlApp)
    (h : AppInv a) :
    AppInv { a with sensor_data := tickSensors inp a.sensor_data } := by
  obtain ⟨h1, h2, h3⟩ := h
  refine ⟨?_, ?_, ?_⟩
  · show (tickSpeeds _ _ _ _).length = 4
    rw [tickSpeeds_length]
    exact h1
  · exact h2
  · intro hm
    obtain ⟨hz, hf, hsi⟩ := h3 hm
    refine ⟨?_, hf, hsi⟩
    show ∀ x ∈ tickSpeeds a.sensor_data.motor_states inp.mr 0
      a.sensor_data.motor_speeds, x = 0
    rw [tickSpeeds_all_false _ inp.mr hf 0]
    exact hz

lemma appInv_applyStep (st : Step) (a : ForlenzaControlApp) (h : AppInv a) :
    AppInv (applyStep st a) := by
  cases st with
  | tick inp =>
      show AppInv (if a.system_compatible = true then
        { a with sensor_data := tickSensors inp a.sensor_data } else a)
      by_cases hc : a.system_compatible = true
      · rw [if_pos hc]
        exact appInv_tickSensors inp a h
      · rw [if_neg hc]
        exact h
  | cmd c =>
      show AppInv (processCommand c a)
      unfold processCommand
      by_cases hc : (!a.system_compatible) = true
      · rw [if_pos hc]
        exact h
      · rw [if_neg hc]
        cases c with
        | runDiag => exact appInv_runDiagnostic a h
        | emergencyStop => exact appInv_emergencyShutdown a h
        | reset => exact appInv_resetSystem a h

lemma appInv_runSteps (a : ForlenzaControlApp) (h : AppInv a)
    (steps : List Step) : AppInv (runSteps a steps) := by
  induction steps generalizing a with
  | nil => exact h
  | cons st rest ih => exact ih _ (appInv_applyStep st a h)

lemma reachable_appInv (a : ForlenzaControlApp) (h : Reachable a) :
    AppInv a := by
  obtain ⟨c, e, steps, rfl⟩ := h
  exact appInv_runSteps _ (appInv_mkApp c e) steps

/-- Claim C1: in every reachable state whose mode is EmergencyShutdown
(immediately after the command and across any later ticks and commands
that keep the mode), every motor speed is 0, every motor state is
false, and the safety interlocks are on. -/
theorem C1_emergency_mode_invariant (a : ForlenzaControlApp)
    (h : Reachable a) (hm : a.emergency_shutdown = true) :
    (∀ x ∈ a.sensor_data.motor_speeds, x = 0) ∧
    (∀ b ∈ a.sensor_data.motor_states, b = false) ∧
    a.sensor_data.safety_interlocks = true :=
  (reachable_appInv a h).2.2 hm

/-- Witness for C1 at the state reached by constructing a compatible
app and issuing the EmergencyShutdown command once. -/
theorem C1_emergency_mode_invariant_witness :
    (∀ x ∈ (runSteps (mkApp true "") [Step.cmd Command.emergencyStop]).sensor_data.motor_speeds,
      x = 0) ∧
    (∀ b ∈ (runSteps (mkApp true "") [Step.cmd Command.emergencyStop]).sensor_data.motor_states,
      b = false) ∧
    (runSteps (mkApp true "") [Step.cmd Command.emergencyStop]).sensor_data.safety_interlocks
      = true :=
  C1_emergency_mode_invariant _
    ⟨true, "", [Step.cmd Command.emergencyStop], rfl⟩ rfl

/-- Claim C2: from any sensor record whose temperatures lie in
[20, 30] and pressures in [95, 105], after any number of simulator
ticks with arbitrary random draws the temperatures are still in
[20, 30] and the pressures in [95, 105]. -/
theorem C2_clamp_invariant (d : SensorData)
    (h1 : ∀ t ∈ d.temperatures, 20 ≤ t ∧ t ≤ 30)
    (h2 : ∀ p ∈ d.pressures, 95 ≤ p ∧ p ≤ 105)
    (l : List TickInput) :
    (∀ t ∈ (runTicks d l).temperatures, 20 ≤ t ∧ t ≤ 30) ∧
    (∀ p ∈ (runTicks d l).pressures, 95 ≤ p ∧ p ≤ 105) := by
  induction l generalizing d with
  | nil => exact ⟨h1, h2⟩
  | cons inp rest ih =>
      exact ih (tickSensors inp d)
        (fun t ht => mem_tickTemps inp.tr 0 d.temperatures t ht)
        (fun p hp => mem_tickPressures inp.pr 0 d.pressures p hp)

/-- Witness for C2 at a concrete in-range sensor record and one tick
with all random draws equal to 0. -/
theorem C2_clamp_invariant_witness :
    (∀ t ∈ (runTicks ⟨[25, 21], [100, 96], [1750, 1800, 0, 2200],
        [true, true, false, true], true, 0⟩
        [TickInput.mk (fun _ => 0) (fun _ => 0) (fun _ => 0) 1]).temperatures,
      20 ≤ t ∧ t ≤ 30) ∧
    (∀ p ∈ (runTicks ⟨[25, 21], [100, 96], [1750, 1800, 0, 2200],
        [true, true, false, true], true, 0⟩
        [TickInput.mk (fun _ => 0) (fun _ => 0) (fun _ => 0) 1]).pressures,
      95 ≤ p ∧ p ≤ 105) :=
  C2_clamp_invariant _ (by decide) (by decide) _

/-- Claim C3: in a state constructed or evolved with
system_compatible = false, no tick ever fires (the simulation thread
was never spawned) and every command dispatched by the update handler
is a no-op, for any single step and for any whole step sequence. -/
theorem C3_incompatible_inert (a : ForlenzaControlApp)
    (h : a.system_compatible = false) (st : Step) (steps : List Step) :
    applyStep st a = a ∧ runSteps a steps = a := by
  have hstep : ∀ s : Step, applyStep s a = a := by
    intro s
    cases s <;> simp [applyStep, processCommand, h]
  refine ⟨hstep st, ?_⟩
  induction steps with
  | nil => rfl
  | cons s rest ih =>
      show runSteps (applyStep s a) rest = a
      rw [hstep s]
      exact ih

/-- Witness for C3 at an app constructed with compatible = false, one
EmergencyShutdown command and a two-command sequence. -/
theorem C3_incompatible_inert_witness :
    applyStep (Step.cmd Command.emergencyStop) (mkApp false "err") = mkApp false "err" ∧
    runSteps (mkApp false "err") [Step.cmd Command.runDiag, Step.cmd Command.reset]
      = mkApp false "err" :=
  C3_incompatible_inert (mkApp false "err") rfl
    (Step.cmd Command.emergencyStop)
    [Step.cmd Command.runDiag, Step.cmd Command.reset]

/-- Claim C4: the end-to-end scenario from the default compatible
construction: EmergencyShutdown zeroes and stops all motors, forces
the interlocks and enters EmergencyShutdown mode; the following Reset
restores the default run configuration with speeds 1750 + 50 * i
(so [1750, 1800, 0, 1900]) and returns to Normal mode. -/
theorem C4_shutdown_reset_scenario :
    (mkApp true "").sensor_data.motor_states = [true, true, false, true] ∧
    (mkApp true "").sensor_data.motor_speeds = [1750, 1800, 0, 2200] ∧
    (runSteps (mkApp true "") [Step.cmd Command.emergencyStop]).sensor_data.motor_speeds
      = [0, 0, 0, 0] ∧
    (runSteps (mkApp true "") [Step.cmd Command.emergencyStop]).sensor_data.motor_states
      = [false, false, false, false] ∧
    (runSteps (mkApp true "") [Step.cmd Command.emergencyStop]).sensor_data.safety_interlocks
      = true ∧
    (runSteps (mkApp true "") [Step.cmd Command.emergencyStop]).emergency_shutdown = true ∧
    (runSteps (mkApp true "")
      [Step.cmd Command.emergencyStop, Step.cmd Command.reset]).sensor_data.motor_states
      = [true, true, false, true] ∧
    (runSteps (mkApp true "")
      [Step.cmd Command.emergencyStop, Step.cmd Command.reset]).sensor_data.motor_speeds
      = [1750 + 50 * 0, 1750 + 50 * 1, 0, 1750 + 50 * 3] ∧
    (runSteps (mkApp true "")
      [Step.cmd Command.emergencyStop, Step.cmd Command.reset]).emergency_shutdown = false := by
  decide

/-- Claim C6: the Reset command dispatched in Normal mode leaves the
whole app state unchanged. -/
theorem C6_reset_normal_noop (a : ForlenzaControlApp)
    (h : a.emergency_shutdown = false) :
    applyStep (Step.cmd Command.reset) a = a := by
  show processCommand Command.reset a = a
  unfold processCommand
  by_cases hc : (!a.system_compatible) = true
  · rw [if_pos hc]
  · rw [if_neg hc]
    show resetSystem a = a
    unfold resetSystem
    rw [h]
    simp

/-- Witness for C6 at the compatible default construction, which is in
Normal mode. -/
theorem C6_reset_normal_noop_witness :
    applyStep (Step.cmd Command.reset) (mkApp true "") = mkApp true "" :=
  C6_reset_normal_noop (mkApp true "") rfl

/-- Claim C7: emergency_shutdown is idempotent; the second application
changes nothing. -/
theorem C7_shutdown_idempotent (a : ForlenzaControlApp) :
    emergencyShutdown (emergencyShutdown a) = emergencyShutdown a := by
  unfold emergencyShutdown shutdownSensors
  simp [shutdownZip_idem]

/-- Claim C10: emergency_shutdown leaves temperatures, pressures,
last_update, the diagnostic log and the diagnostic flag exactly as
they were. -/
theorem C10_shutdown_frame (a : ForlenzaControlApp) :
    (emergencyShutdown a).sensor_data.temperatures = a.sensor_data.temperatures ∧
    (emergencyShutdown a).sensor_data.pressures = a.sensor_data.pressures ∧
    (emergencyShutdown a).sensor_data.last_update = a.sensor_data.last_update ∧
    (emergencyShutdown a).diagnostic_log = a.diagnostic_log ∧
    (emergencyShutdown a).diagnostic_running = a.diagnostic_running :=
  ⟨rfl, rfl, rfl, rfl, rfl⟩

/-- Counterexample to claim C5 as stated: in a compatible app that is
in EmergencyShutdown mode (so mode is not Normal) with no diagnostic
in progress, dispatching RunDiagnostic is not a no-op: it flips
diagnostic_running and rewrites the log. -/
theorem C5_counterexample :
    (runSteps (mkApp true "") [Step.cmd Command.emergencyStop]).emergency_shutdown = true ∧
    (runSteps (mkApp true "") [Step.cmd Command.emergencyStop]).diagnostic_running = false ∧
    (runSteps (mkApp true "")
      [Step.cmd Command.emergencyStop, Step.cmd Command.runDiag]).diagnostic_running = true ∧
    (runSteps (mkApp true "")
      [Step.cmd Command.emergencyStop, Step.cmd Command.runDiag]).diagnostic_log ≠
      (runSteps (mkApp true "") [Step.cmd Command.emergencyStop]).diagnostic_log := by
  refine ⟨rfl, rfl, rfl, ?_⟩
  intro h
  exact List.noConfusion h

/-- Claim C5 amended: run_diagnostic has an effect only when
system_compatible is true and diagnostic_in_progress is false — the
mode is not consulted; in any other case it is a silent no-op, and a
second invocation before the flag clears changes nothing, so two quick
invocations produce exactly one log. -/
theorem C5_diagnostic_guard (a : ForlenzaControlApp) :
    (a.system_compatible = false ∨ a.diagnostic_running = true →
      runDiagnostic a = a) ∧
    runDiagnostic (runDiagnostic a) = runDiagnostic a := by
  constructor
  · intro h
    unfold runDiagnostic
    rcases h with h | h <;> rw [h] <;> simp
  · by_cases h : (!a.system_compatible || a.diagnostic_running) = true
    · have e : runDiagnostic a = a := by
        unfold runDiagnostic
        rw [if_pos h]
      rw [e, e]
    · have e : runDiagnostic a =
        { a with diagnostic_running := true, diagnostic_log := diagnosticLines } := by
        unfold runDiagnostic
        rw [if_neg h]
      rw [e]
      show runDiagnostic
        { a with diagnostic_running := true, diagnostic_log := diagnosticLines } = _
      unfold runDiagnostic
      rw [if_pos]
      simp

/-- Witness for C5 amended: an incompatible app is untouched, and two
quick diagnostics on the compatible default equal one. -/
theorem C5_diagnostic_guard_witness :
    runDiagnostic (mkApp false "e") = mkApp false "e" ∧
    runDiagnostic (runDiagnostic (mkApp true "")) = runDiagnostic (mkApp true "") :=
  ⟨(C5_diagnostic_guard (mkApp false "e")).1 (Or.inl rfl),
   (C5_diagnostic_guard (mkApp true "")).2⟩

lemma tickSpeeds_getD (states : List Bool) (mr : ℕ → ℕ) :
    ∀ (l : List ℕ) (j i : ℕ), i < l.length →
      (tickSpeeds states mr j l).getD i 0 =
        if states.getD (j + i) false
        then (1750 + (j + i) * 50 + mr (j + i) % 100) % 65536
        else l.getD i 0 := by
  intro l
  induction l with
  | nil =>
      intro j i hi
      exact absurd hi (by simp)
  | cons x xs ih =>
      intro j i hi
      cases i with
      | zero => simp [tickSpeeds]
      | succ n =>
          have hn : n < xs.length := by simpa using hi
          have hrec := ih (j + 1) n hn
          show ((if states.getD j false
              then (1750 + j * 50 + mr j % 100) % 65536
              else x) :: tickSpeeds states mr (j + 1) xs).getD (n + 1) 0 = _
          rw [List.getD_cons_succ, hrec]
          have hji : j + 1 + n = j + (n + 1) := by omega
          rw [hji, List.getD_cons_succ]

/-- Claim C8: in a tick on a reachable state, a running motor i gets
speed 1750 + 50 * i plus the pseudo-random offset (random mod 100,
hence in [0, 99]); a stopped motor keeps its previous speed entry. -/
theorem C8_tick_motor_speeds (a : ForlenzaControlApp) (h : Reachable a)
    (inp : TickInput) (i : ℕ) (hi : i < 4) :
    (a.sensor_data.motor_states.getD i false = true →
      (tickSensors inp a.sensor_data).motor_speeds.getD i 0 =
        1750 + 50 * i + inp.mr i % 100 ∧ inp.mr i % 100 ≤ 99) ∧
    (a.sensor_data.motor_states.getD i false = false →
      (tickSensors inp a.sensor_data).motor_speeds.getD i 0 =
        a.sensor_data.motor_speeds.getD i 0) := by
  obtain ⟨hlen, -, -⟩ := reachable_appInv a h
  have hil : i < a.sensor_data.motor_speeds.length := by
    rw [hlen]
    exact hi
  have hg : (tickSpeeds a.sensor_data.motor_states inp.mr 0
      a.sensor_data.motor_speeds).getD i 0 =
      if a.sensor_data.motor_states.getD i false
      then (1750 + i * 50 + inp.mr i % 100) % 65536
      else a.sensor_data.motor_speeds.getD i 0 := by
    simpa using tickSpeeds_getD a.sensor_data.motor_states inp.mr
      a.sensor_data.motor_speeds 0 i hil
  constructor
  · intro ht
    constructor
    · show (tickSpeeds _ _ _ _).getD i 0 = _
      rw [hg, ht]
      simp only [if_true]
      omega
    · omega
  · intro hf
    show (tickSpeeds _ _ _ _).getD i 0 = _
    rw [hg, hf]
    simp

/-- Witness for C8 at the compatible default construction, motor 0
(running) and motor 2 (stopped), with all random draws equal to 7. -/
theorem C8_tick_motor_speeds_witness :
    ((mkApp true "").sensor_data.motor_states.getD 0 false = true →
      (tickSensors (TickInput.mk (fun _ => 0) (fun _ => 0) (fun _ => 7) 1)
        (mkApp true "").sensor_data).motor_speeds.getD 0 0 =
        1750 + 50 * 0 + (fun _ : ℕ => 7) 0 % 100 ∧ (fun _ : ℕ => 7) 0 % 100 ≤ 99) ∧
    ((mkApp true "").sensor_data.motor_states.getD 0 false = false →
      (tickSensors (TickInput.mk (fun _ => 0) (fun _ => 0) (fun _ => 7) 1)
        (mkApp true "").sensor_data).motor_speeds.getD 0 0 =
        (mkApp true "").sensor_data.motor_speeds.getD 0 0) :=
  C8_tick_motor_speeds (mkApp true "") ⟨true, "", [], rfl⟩
    (TickInput.mk (fun _ => 0) (fun _ => 0) (fun _ => 7) 1) 0 (by decide)

/-- Claim C9 (the code side): no step of the system ever returns
diagnostic_running to false once it is true — the settle thread in
run_diagnostic sleeps and exits without writing anything, so the flag
never clears no matter how much time or how many steps pass. -/
theorem C9_diagnostic_flag_never_clears (a : ForlenzaControlApp)
    (h : a.diagnostic_running = true) (steps : List Step) :
    (runSteps a steps).diagnostic_running = true := by
  induction steps generalizing a with
  | nil => exact h
  | cons st rest ih =>
      refine ih (applyStep st a) ?_
      cases st with
      | tick inp =>
          show (if a.system_compatible = true then
            { a with sensor_data := tickSensors inp a.sensor_data }
            else a).diagnostic_running = true
          by_cases hc : a.system_compatible = true
          · rw [if_pos hc]
            exact h
          · rw [if_neg hc]
            exact h
      | cmd c =>
          show (processCommand c a).diagnostic_running = true
          unfold processCommand
          by_cases hc : (!a.system_compatible) = true
          · rw [if_pos hc]
            exact h
          · rw [if_neg hc]
            cases c with
            | runDiag =>
                unfold runDiagnostic
                by_cases hd : (!a.system_compatible || a.diagnostic_running) = true
                · rw [if_pos hd]
                  exact h
                · rw [if_neg hd]
            | emergencyStop => exact h
            | reset =>
                show (resetSystem a).diagnostic_running = true
                unfold resetSystem
                by_cases he : a.emergency_shutdown = true
                · rw [if_pos he]
                  exact h
                · rw [if_neg he]
                  exact h

/-- Witness for C9: after one accepted RunDiagnostic on the compatible
default, the flag is still set after two further commands (among them
a second RunDiagnostic). -/
theorem C9_diagnostic_flag_never_clears_witness :
    (runSteps (runSteps (mkApp true "") [Step.cmd Command.runDiag])
      [Step.cmd Command.runDiag, Step.cmd Command.emergencyStop]).diagnostic_running
      = true :=
  C9_diagnostic_flag_never_clears
    (runSteps (mkApp true "") [Step.cmd Command.runDiag]) rfl
    [Step.cmd Command.runDiag, Step.cmd Command.emergencyStop]
